import Mathlib

/-!
Verification development for the n8n MCP StreamableHTTP server
(src/index.js, stateful variant: session registry backed by an in-memory
Map plus an optional Redis store).

Shallow embedding conventions:
- The JS `Map` named `localTransports` is modelled as an association list
  with JS-Map semantics (unique keys; `set` replaces, `delete` removes).
- The optional Redis client is modelled as `Option` of a second map from
  full Redis keys (string "mcp:session:" ++ id) to stored records; a
  record carries the serialized credentials and its remaining TTL in
  seconds.  A record being present in the map models a non-expired Redis
  key; `elapse` models the passage of time (Redis expiry).
- A `StreamableHTTPServerTransport` is modelled by a construction identity
  `tid`, the session id its sessionIdGenerator produced, and the
  credentials of the McpServer dispatcher it was connected to.
- Express request handling is modelled as pure state transitions on
  `ServerState`; the HTTP response or the forwarding of the request into a
  transport is the returned `PostOutcome` / `DeleteOutcome`.
-/

/-- Tenant credentials: the n8n base URL and API key (spec §3). -/
structure Creds where
  n8nUrl : String
  n8nApiKey : String
deriving DecidableEq, Repr

/-- Model of a StreamableHTTPServerTransport: `tid` is a construction
identity distinguishing separately constructed transports, `sessionId` is
the id produced by the sessionIdGenerator it was configured with, and
`boundCreds` are the credentials of the McpServer (tool dispatcher) it was
connected to via mcpServer.connect(transport). -/
structure Transport where
  tid : Nat
  sessionId : String
  boundCreds : Creds
deriving DecidableEq, Repr

/-- Value stored in the local map (src/index.js line 83):
`{ transport, n8nUrl, n8nApiKey }`. -/
structure LocalSession where
  transport : Transport
  n8nUrl : String
  n8nApiKey : String
deriving DecidableEq, Repr

/-- Record stored in Redis by saveSession (src/index.js lines 86-90):
the JSON-serialized credentials, plus the remaining TTL in seconds
(setEx initializes it to 7200). -/
structure RedisEntry where
  value : Creds
  ttl : Nat
deriving DecidableEq, Repr

/-- Association-list model of a JS Map / the Redis keyspace. -/
abbrev SMap (α : Type) := List (String × α)

/-- Lookup in the map model: `m.get(k)` (first entry with the key). -/
def mapLookup {α : Type} (m : SMap α) (k : String) : Option α :=
  (m.find? (fun p => p.1 == k)).map (·.2)

/-- Deletion in the map model: `m.delete(k)` removes every entry with the
key (JS Map keys are unique, so states built from the empty map hold at
most one). -/
def mapErase {α : Type} (m : SMap α) (k : String) : SMap α :=
  m.filter (fun p => p.1 != k)

/-- Insertion in the map model: `m.set(k, v)` replaces any entry with the
key. -/
def mapSet {α : Type} (m : SMap α) (k : String) (v : α) : SMap α :=
  (k, v) :: mapErase m k

/-- Whole state of one server process: the local transports map and the
optional Redis keyspace (`none` models REDIS_URL unset / Redis
unavailable, fixed once at startup). -/
structure ServerState where
  localTransports : SMap LocalSession
  redis : Option (SMap RedisEntry)
deriving DecidableEq, Repr

/-- Redis key used for a session id (src/index.js lines 76, 87, 102):
the string "mcp:session:" followed by the id. -/
def redisKey (sessionId : String) : String := "mcp:session:" ++ sessionId

/-- Passage of `n` seconds of Redis TTL time: every stored record loses
`n` seconds of TTL and disappears once the TTL is used up.  The local map
is unaffected (it has no expiry). -/
def elapse (n : Nat) (st : ServerState) : ServerState :=
  { st with
    redis := st.redis.map (fun r =>
      r.filterMap (fun p =>
        if n < p.2.ttl then some (p.1, ⟨p.2.value, p.2.ttl - n⟩) else none)) }

/-- Embedding of sessionExists (src/index.js lines 74-80): when Redis is
configured the answer is whether the Redis key is present (val !== null);
otherwise whether the local map has the id. -/
def sessionExists (st : ServerState) (sessionId : String) : Bool :=
  match st.redis with
  | some r => (mapLookup r (redisKey sessionId)).isSome
  | none => (mapLookup st.localTransports sessionId).isSome

/-- Embedding of saveSession (src/index.js lines 82-92): sets the local
map entry and, when Redis is configured, setEx-writes the serialized
credentials under the session key with a TTL of 7200 seconds. -/
def saveSession (st : ServerState) (sessionId n8nUrl n8nApiKey : String)
    (transport : Transport) : ServerState :=
  { localTransports :=
      mapSet st.localTransports sessionId ⟨transport, n8nUrl, n8nApiKey⟩,
    redis := st.redis.map (fun r =>
      mapSet r (redisKey sessionId) ⟨⟨n8nUrl, n8nApiKey⟩, 7200⟩) }

/-- Embedding of getSession (src/index.js lines 94-96): local lookup
only. -/
def getSession (st : ServerState) (sessionId : String) : Option LocalSession :=
  mapLookup st.localTransports sessionId

/-- Embedding of deleteSession (src/index.js lines 98-105): reads the
local entry, removes the id from the local map and (when configured) the
Redis key, and returns the local entry that was read. -/
def deleteSession (st : ServerState) (sessionId : String) :
    Option LocalSession × ServerState :=
  (mapLookup st.localTransports sessionId,
   { localTransports := mapErase st.localTransports sessionId,
     redis := st.redis.map (fun r => mapErase r (redisKey sessionId)) })

/-- Embedding of activeSessionCount (src/index.js lines 107-109): the
size of the local map. -/
def activeSessionCount (st : ServerState) : Nat :=
  st.localTransports.length

/-- Semantics of the JS expression `headerValue || defaultValue` on an
optional string header: missing headers and empty strings are falsy, so
both fall back to the default. -/
def jsOr (header : Option String) (dflt : String) : String :=
  match header with
  | some s => if s == "" then dflt else s
  | none => dflt

/-- Embedding of getCredentials (src/index.js lines 113-121): resolve
each value from the header with the deployment default as the falsy
fallback, then throw when either resolved value is still empty. -/
def getCredentials (hUrl hKey : Option String) (dUrl dKey : String) :
    Except String Creds :=
  let url := jsOr hUrl dUrl
  let apiKey := jsOr hKey dKey
  if url == "" then
    .error "n8n URL não configurada. Defina N8N_URL ou envie x-n8n-url."
  else if apiKey == "" then
    .error "n8n API Key não configurada. Defina N8N_API_KEY ou envie x-n8n-api-key."
  else
    .ok ⟨url, apiKey⟩

/-- First character of a character list is a slash. -/
def headIsSlash : List Char → Bool
  | [] => false
  | c :: _ => c == '/'

/-- First two characters of a character list are slashes. -/
def headIsDoubleSlash : List Char → Bool
  | c₁ :: c₂ :: _ => c₁ == '/' && c₂ == '/'
  | _ => false

/-- Semantics of the JS test `s.endsWith("/")`: the last character of the
string is a slash. -/
def endsWithSlash (s : String) : Bool :=
  headIsSlash s.data.reverse

/-- Semantics of the JS test `s.startsWith("/")`: the first character of
the string is a slash. -/
def startsWithSlash (s : String) : Bool :=
  headIsSlash s.data

/-- Semantics of the JS expression `s.slice(1)`: drop the first
character. -/
def sliceOne (s : String) : String :=
  ⟨s.data.drop 1⟩

/-- Embedding of the URL construction inside makeN8nRequest
(src/index.js lines 125-127): append a slash to the base only when it
does not already end with one, strip one leading slash from the path,
and join through "api/v1/". -/
def n8nRequestUrl (n8nUrl path : String) : String :=
  let baseUrl := if endsWithSlash n8nUrl then n8nUrl else n8nUrl ++ "/"
  let fullPath := if startsWithSlash path then sliceOne path else path
  baseUrl ++ "api/v1/" ++ fullPath

/-- Base URL normalized to exactly one trailing slash: all trailing
slashes removed, then a single slash appended. -/
def baseWithOneTrailingSlash (s : String) : String :=
  (⟨(s.data.reverse.dropWhile (fun c => c == '/')).reverse⟩ : String) ++ "/"

/-- Modelled from the claim wording for comparison with the code: the
base URL with exactly one trailing slash, followed by "api/v1/", followed
by the path with any single leading slash removed. -/
def claimedRequestUrl (base path : String) : String :=
  baseWithOneTrailingSlash base ++ "api/v1/" ++
    (if startsWithSlash path then sliceOne path else path)

/-- Test for a base URL already ending in two or more slashes (the inputs
on which the code keeps the duplicate separators). -/
def endsInDoubleSlash (s : String) : Bool :=
  headIsDoubleSlash s.data.reverse

/-- Minimal JSON value model for payloads returned by the upstream API. -/
inductive Json where
  | null : Json
  | bool (b : Bool) : Json
  | num (n : Int) : Json
  | str (s : String) : Json
  | arr (elems : List Json) : Json
  | obj (fields : List (String × Json)) : Json

/-- Field access on a JSON object: `data.f` when data is an object with
the field, otherwise undefined (`none`). -/
def jsField (j : Json) (f : String) : Option Json :=
  match j with
  | .obj fields => mapLookup fields f
  | _ => none

/-- Semantics of the JS expression `data?.data ?? data`: the "data" field
when present and not null, otherwise the value itself. -/
def jsCoalesceData (j : Json) : Json :=
  match jsField j "data" with
  | some .null => j
  | some v => v
  | none => j

/-- Rendering used to model `JSON.stringify` in tool result texts (up to
whitespace and string escaping, which the claims do not inspect). -/
def jsonRender : Json → String
  | .null => "null"
  | .bool true => "true"
  | .bool false => "false"
  | .num n => toString n
  | .str s => "\"" ++ s ++ "\""
  | .arr elems =>
      "[" ++ String.intercalate "," (elems.attach.map (fun e => jsonRender e.1)) ++ "]"
  | .obj fields =>
      "\x7b" ++
        String.intercalate ","
          (fields.attach.map (fun f => "\"" ++ f.1.1 ++ "\":" ++ jsonRender f.1.2)) ++
      "\x7d"
decreasing_by
  · have := List.sizeOf_lt_of_mem e.2
    simp only [Json.arr.sizeOf_spec]
    omega
  · rcases f with ⟨⟨a, b⟩, hf⟩
    have := List.sizeOf_lt_of_mem hf
    simp only [Json.obj.sizeOf_spec, Prod.mk.sizeOf_spec] at this ⊢
    omega

/-- Behaviour of one upstream n8n API call as observed by n8nRequest:
a 2xx JSON body, a non-2xx response with a body text, an abort of the
10-second timeout, or a lower-level network fault. -/
inductive UpstreamOutcome where
  | ok (data : Json)
  | httpError (status : Nat) (text : String)
  | timeout
  | networkError (msg : String)

/-- True exactly when the upstream call did not yield a 2xx body. -/
def upstreamFails : UpstreamOutcome → Bool
  | .ok _ => false
  | _ => true

/-- Embedding of the result handling inside makeN8nRequest (src/index.js
lines 132-152): a non-ok response is converted into a thrown error
carrying the status and body text; timeouts and network faults are
rethrown; an ok response yields its parsed body. -/
def n8nRequestResult : UpstreamOutcome → Except String Json
  | .ok data => .ok data
  | .httpError status text =>
      .error ("n8n error (" ++ toString status ++ "): " ++ text)
  | .timeout => .error "The operation was aborted"
  | .networkError msg => .error msg

/-- Text content block of a tool result (`{ type: "text", text }`). -/
structure TextBlock where
  text : String
deriving DecidableEq, Repr

/-- Tool handler result: the content list, with the isError flag (absent
in JS on success, modelled as false). -/
structure ToolResult where
  content : List TextBlock
  isError : Bool
deriving DecidableEq, Repr

/-- Embedding of the list_workflows tool handler (src/index.js lines
162-174): on a successful upstream call it reports the count (or "?"
when the payload is not an array) plus the full payload; any thrown
error is caught and converted into an isError result. -/
def listWorkflowsHandler (upstream : Except String Json) : ToolResult :=
  match upstream with
  | .error e => { content := [⟨"Erro: " ++ e⟩], isError := true }
  | .ok data =>
      let list := jsCoalesceData data
      let count := match list with
        | .arr elems => toString elems.length
        | _ => "?"
      { content := [⟨count ++ " workflow(s) encontrado(s)."⟩, ⟨jsonRender data⟩],
        isError := false }

/-- Behaviour of the direct webhook fetch inside
execute_workflow_via_webhook: a response with its ok flag, status and
body text, an abort of the 15-second timeout, or a network fault. -/
inductive FetchOutcome where
  | resp (ok : Bool) (status : Nat) (text : String)
  | timeout
  | networkError (msg : String)

/-- True exactly when the webhook fetch did not yield an ok response. -/
def fetchFails : FetchOutcome → Bool
  | .resp ok _ _ => !ok
  | _ => true

/-- Embedding of the execute_workflow_via_webhook tool handler
(src/index.js lines 314-345).  `parsed` models the outcome of
JSON.parse on the response text (`none` when parsing threw and the raw
text is kept).  Non-ok responses and thrown faults are converted into
isError results; nothing propagates. -/
def executeWorkflowViaWebhookHandler (outcome : FetchOutcome)
    (parsed : Option Json) : ToolResult :=
  match outcome with
  | .timeout =>
      { content := [⟨"Erro ao chamar webhook: The operation was aborted"⟩],
        isError := true }
  | .networkError msg =>
      { content := [⟨"Erro ao chamar webhook: " ++ msg⟩], isError := true }
  | .resp ok status text =>
      if !ok then
        { content := [⟨"Webhook erro (" ++ toString status ++ "): " ++ text⟩],
          isError := true }
      else
        { content :=
            [⟨"Webhook chamado com sucesso (HTTP " ++ toString status ++ ")."⟩,
             ⟨match parsed with
               | none => text
               | some j => jsonRender j⟩],
          isError := false }

/-- Inbound POST /mcp request as the handler observes it: the
mcp-session-id header, the two tenant-credential headers, and whether the
body passes isInitializeRequest. -/
structure Request where
  sessionIdHeader : Option String
  xN8nUrl : Option String
  xN8nApiKey : Option String
  isInit : Bool
deriving DecidableEq, Repr

/-- Semantics of the JS truthiness test `if (sessionId)` on a header:
missing headers and empty strings are falsy. -/
def headerVal : Option String → Option String
  | some s => if s == "" then none else some s
  | none => none

/-- What the POST /mcp handler did with the request: forwarded it into a
transport via transport.handleRequest, or answered a JSON-RPC error
envelope with an HTTP status, a code and a message. -/
inductive PostOutcome where
  | forwarded (transport : Transport)
  | rpcError (status : Nat) (code : Int) (message : String)
deriving DecidableEq, Repr

/-- Embedding of the new-session tail of POST /mcp (src/index.js lines
491-532): reject non-initialize bodies with -32000, resolve credentials
(rejecting with the thrown message on failure), then build a transport
whose generator mints the fresh UUID, bind the dispatcher to the resolved
credentials, register via saveSession and forward. -/
def newSessionPath (st : ServerState) (req : Request)
    (dUrl dKey freshUuid : String) (freshTid : Nat) :
    PostOutcome × ServerState :=
  if !req.isInit then
    (.rpcError 400 (-32000) "Sessão não encontrada. Envie Initialize primeiro.", st)
  else
    match getCredentials req.xN8nUrl req.xN8nApiKey dUrl dKey with
    | .error msg => (.rpcError 400 (-32000) msg, st)
    | .ok c =>
        let transport : Transport := ⟨freshTid, freshUuid, c⟩
        (.forwarded transport,
         saveSession st freshUuid c.n8nUrl c.n8nApiKey transport)

/-- Embedding of the reconstruction branch of POST /mcp (src/index.js
lines 472-488): parse the stored record, bind a fresh dispatcher to the
stored credentials, build a transport whose sessionIdGenerator returns
the existing id, register via saveSession and forward. -/
def reconstructSession (st : ServerState) (sessionId : String)
    (entry : RedisEntry) (freshTid : Nat) : PostOutcome × ServerState :=
  let transport : Transport := ⟨freshTid, sessionId, entry.value⟩
  (.forwarded transport,
   saveSession st sessionId entry.value.n8nUrl entry.value.n8nApiKey transport)

/-- Embedding of the POST /mcp handler (src/index.js lines 460-533):
with a truthy session id header, a local hit forwards into the stored
transport; otherwise, when Redis is configured and holds the key, the
reconstruction branch runs; in every remaining case the new-session tail
runs. -/
def handlePost (st : ServerState) (req : Request)
    (dUrl dKey freshUuid : String) (freshTid : Nat) :
    PostOutcome × ServerState :=
  match headerVal req.sessionIdHeader with
  | some sid =>
      match getSession st sid with
      | some session => (.forwarded session.transport, st)
      | none =>
          match st.redis with
          | some r =>
              match mapLookup r (redisKey sid) with
              | some entry => reconstructSession st sid entry freshTid
              | none => newSessionPath st req dUrl dKey freshUuid freshTid
          | none => newSessionPath st req dUrl dKey freshUuid freshTid
  | none => newSessionPath st req dUrl dKey freshUuid freshTid

/-- Decision phase of the POST handler: everything it reads from shared
state before its first write.  The reads end at the await boundaries of
getSession / sessionExists / redisClient.get, after which the handler no
longer consults the registry. -/
inductive PostDecision where
  | forwardLocal (session : LocalSession)
  | reconstruct (sessionId : String) (entry : RedisEntry)
  | fresh
deriving DecidableEq, Repr

/-- Reads of the POST handler against the shared state (the part of
handlePost up to and including the Redis record fetch). -/
def postDecide (st : ServerState) (req : Request) : PostDecision :=
  match headerVal req.sessionIdHeader with
  | some sid =>
      match getSession st sid with
      | some session => .forwardLocal session
      | none =>
          match st.redis with
          | some r =>
              match mapLookup r (redisKey sid) with
              | some entry => .reconstruct sid entry
              | none => .fresh
          | none => .fresh
  | none => .fresh

/-- Writes of the POST handler: what it does after its reads, given the
decision those reads produced.  Applied to the state current at write
time, which in an interleaved execution may differ from the state the
decision was made on. -/
def postCommit (st : ServerState) (req : Request) (d : PostDecision)
    (dUrl dKey freshUuid : String) (freshTid : Nat) :
    PostOutcome × ServerState :=
  match d with
  | .forwardLocal session => (.forwarded session.transport, st)
  | .reconstruct sid entry => reconstructSession st sid entry freshTid
  | .fresh => newSessionPath st req dUrl dKey freshUuid freshTid

/-- Interleaved execution of two concurrent POST handlers on the same
request target: both perform their reads on the same starting state
(possible because the awaits between the reads and saveSession yield the
event loop), then commit one after the other. -/
def raceTwo (st : ServerState) (req : Request)
    (dUrl dKey freshUuid₁ freshUuid₂ : String) (tid₁ tid₂ : Nat) :
    PostOutcome × PostOutcome × ServerState :=
  let d₁ := postDecide st req
  let d₂ := postDecide st req
  let r₁ := postCommit st req d₁ dUrl dKey freshUuid₁ tid₁
  let r₂ := postCommit r₁.2 req d₂ dUrl dKey freshUuid₂ tid₂
  (r₁.1, r₂.1, r₂.2)

/-- Response of the DELETE /mcp handler. -/
inductive DeleteOutcome where
  | ok
  | badRequest (msg : String)
  | notFound (msg : String)
deriving DecidableEq, Repr

/-- Embedding of the DELETE /mcp handler (src/index.js lines 541-552):
a missing or empty header is a 400; otherwise deleteSession runs, a
removed local session yields 200 (after a best-effort transport close
whose failure is ignored), and an absent one yields 404. -/
def handleDelete (st : ServerState) (sessionIdHeader : Option String) :
    DeleteOutcome × ServerState :=
  match headerVal sessionIdHeader with
  | none => (.badRequest "Header mcp-session-id obrigatório.", st)
  | some sid =>
      match deleteSession st sid with
      | (some _, st') => (.ok, st')
      | (none, st') => (.notFound "Sessão não encontrada.", st')

/-- Redis record currently stored for a session id, if any. -/
def redisRecord (st : ServerState) (sessionId : String) : Option RedisEntry :=
  st.redis.bind (fun r => mapLookup r (redisKey sessionId))

/- ## Lemmas about the map model -/

theorem mapLookup_mapSet_self {α : Type} (m : SMap α) (k : String) (v : α) :
    mapLookup (mapSet m k v) k = some v := by
  simp [mapLookup, mapSet, List.find?]

theorem mapLookup_eq_none_iff {α : Type} (m : SMap α) (k : String) :
    mapLookup m k = none ↔ ∀ p ∈ m, p.1 ≠ k := by
  simp [mapLookup, List.find?_eq_none]

theorem mapErase_of_lookup_none {α : Type} (m : SMap α) (k : String)
    (h : mapLookup m k = none) : mapErase m k = m := by
  rw [mapLookup_eq_none_iff] at h
  apply List.filter_eq_self.mpr
  intro p hp
  simpa using h p hp

theorem mapLookup_mapErase_self {α : Type} (m : SMap α) (k : String) :
    mapLookup (mapErase m k) k = none := by
  rw [mapLookup_eq_none_iff]
  intro p hp
  have := (List.mem_filter.mp hp).2
  simpa using this

theorem mapErase_mapErase {α : Type} (m : SMap α) (k : String) :
    mapErase (mapErase m k) k = mapErase m k := by
  apply List.filter_eq_self.mpr
  intro p hp
  exact (List.mem_filter.mp hp).2

theorem mapErase_mapSet_self {α : Type} (m : SMap α) (k : String) (v : α) :
    mapErase (mapSet m k v) k = mapErase m k := by
  simp [mapSet, mapErase, List.filter, mapErase_mapErase]

theorem length_mapSet_of_none {α : Type} (m : SMap α) (k : String) (v : α)
    (h : mapLookup m k = none) : (mapSet m k v).length = m.length + 1 := by
  simp [mapSet, mapErase_of_lookup_none m k h]

theorem length_mapSet_mapSet_self {α : Type} (m : SMap α) (k : String) (v₁ v₂ : α)
    (h : mapLookup m k = none) :
    (mapSet (mapSet m k v₁) k v₂).length = m.length + 1 := by
  rw [show mapSet (mapSet m k v₁) k v₂ = (k, v₂) :: mapErase (mapSet m k v₁) k from rfl,
    mapErase_mapSet_self, mapErase_of_lookup_none m k h, List.length_cons]

/- ## Branch lemmas for the POST handler -/

theorem handlePost_localHit (st : ServerState) (req : Request)
    (dUrl dKey freshUuid : String) (freshTid : Nat) (sid : String)
    (session : LocalSession)
    (hs : headerVal req.sessionIdHeader = some sid)
    (hl : getSession st sid = some session) :
    handlePost st req dUrl dKey freshUuid freshTid =
      (.forwarded session.transport, st) := by
  simp only [handlePost, hs, hl]

theorem handlePost_reconstruct (st : ServerState) (req : Request)
    (dUrl dKey freshUuid : String) (freshTid : Nat) (sid : String)
    (r : SMap RedisEntry) (entry : RedisEntry)
    (hs : headerVal req.sessionIdHeader = some sid)
    (hl : getSession st sid = none)
    (hr : st.redis = some r)
    (he : mapLookup r (redisKey sid) = some entry) :
    handlePost st req dUrl dKey freshUuid freshTid =
      reconstructSession st sid entry freshTid := by
  simp only [handlePost, hs, hl, hr, he]

theorem handlePost_miss (st : ServerState) (req : Request)
    (dUrl dKey freshUuid : String) (freshTid : Nat) (sid : String)
    (hs : headerVal req.sessionIdHeader = some sid)
    (hl : getSession st sid = none)
    (hr : redisRecord st sid = none) :
    handlePost st req dUrl dKey freshUuid freshTid =
      newSessionPath st req dUrl dKey freshUuid freshTid := by
  cases hred : st.redis with
  | none => simp only [handlePost, hs, hl, hred]
  | some r =>
      have hmiss : mapLookup r (redisKey sid) = none := by
        simpa [redisRecord, hred] using hr
      simp only [handlePost, hs, hl, hred, hmiss]

theorem postDecide_reconstruct (st : ServerState) (req : Request)
    (sid : String) (r : SMap RedisEntry) (entry : RedisEntry)
    (hs : headerVal req.sessionIdHeader = some sid)
    (hl : getSession st sid = none)
    (hr : st.redis = some r)
    (he : mapLookup r (redisKey sid) = some entry) :
    postDecide st req = .reconstruct sid entry := by
  simp only [postDecide, hs, hl, hr, he]

/- ## Claim C1 -/

/-- Transport of the C1 scenario. -/
def c1Transport : Transport := ⟨1, "s1", ⟨"https://n8n.example", "key1"⟩⟩

/-- State of the C1 scenario: a session saved with Redis configured,
after 7200 seconds have elapsed, so the Redis record has expired while
the transport is still held locally. -/
def c1State : ServerState :=
  elapse 7200 (saveSession ⟨[], some []⟩ "s1" "https://n8n.example" "key1" c1Transport)

/-- C1 counterexample: in a state where Redis is configured, the id "s1"
is held in the local transport map but its Redis record has expired, so
sessionExists reports it as not existing — refuting the claim that an id
held in the local transport map is always reported as existing. -/
theorem sessionExists_ignores_local_counterexample :
    (mapLookup c1State.localTransports "s1").isSome = true ∧
    sessionExists c1State "s1" = false := by
  exact ⟨rfl, rfl⟩

/-- C1 (amended): when the distributed store is configured, sessionExists
is decided solely by the presence of a non-expired remote record — the
local transport map is never consulted, so two states with the same Redis
keyspace agree regardless of their local maps; only when no store is
configured does local presence decide existence. -/
theorem sessionExists_store_decides (l₁ l₂ : SMap LocalSession)
    (r : SMap RedisEntry) (sessionId : String) :
    sessionExists ⟨l₁, some r⟩ sessionId = (mapLookup r (redisKey sessionId)).isSome ∧
    sessionExists ⟨l₁, none⟩ sessionId = (mapLookup l₁ sessionId).isSome ∧
    sessionExists ⟨l₁, some r⟩ sessionId = sessionExists ⟨l₂, some r⟩ sessionId := by
  exact ⟨rfl, rfl, rfl⟩

/- ## Claim C2 -/

/-- C2: a POST carrying a session id that is registered locally is
forwarded into the stored transport and leaves the whole state unchanged,
for every request — in particular for requests whose tenant-credential
headers differ from the stored pair, since the conclusion does not depend
on those headers, the stored pair read back afterwards is still the
originally bound one. -/
theorem active_session_credentials_immutable (st : ServerState)
    (req : Request) (dUrl dKey freshUuid : String) (freshTid : Nat)
    (sid : String) (session : LocalSession)
    (hs : headerVal req.sessionIdHeader = some sid)
    (hl : getSession st sid = some session) :
    handlePost st req dUrl dKey freshUuid freshTid =
      (.forwarded session.transport, st) ∧
    getSession (handlePost st req dUrl dKey freshUuid freshTid).2 sid =
      some session := by
  have h := handlePost_localHit st req dUrl dKey freshUuid freshTid sid session hs hl
  exact ⟨h, by rw [h]; exact hl⟩

/-- Session stored in the C2 witness state. -/
def c2Session : LocalSession :=
  ⟨⟨5, "sid2", ⟨"https://tenant-a", "key-a"⟩⟩, "https://tenant-a", "key-a"⟩

/-- Witness state for C2: one locally registered session, no Redis. -/
def c2State : ServerState := ⟨[("sid2", c2Session)], none⟩

/-- Witness request for C2: carries the registered session id together
with tenant-credential headers that differ from the stored pair. -/
def c2Req : Request := ⟨some "sid2", some "https://tenant-b", some "key-b", false⟩

theorem active_session_credentials_immutable_witness :
    handlePost c2State c2Req "https://dflt" "dk" "uuid-9" 9 =
      (.forwarded c2Session.transport, c2State) ∧
    getSession (handlePost c2State c2Req "https://dflt" "dk" "uuid-9" 9).2 "sid2" =
      some c2Session :=
  active_session_credentials_immutable c2State c2Req "https://dflt" "dk" "uuid-9" 9
    "sid2" c2Session rfl rfl

/- ## Claim C3 -/

/-- C3: a POST whose session id misses the local map but has a Redis
record is answered by forwarding into a newly built transport whose
generated session id is exactly the existing id (not the fresh UUID) and
whose connected dispatcher is bound to exactly the credentials of the
stored record; the transport-credential pair is registered locally via
saveSession, and reading the registry back confirms it. -/
theorem reconstruction_binds_stored_credentials (st : ServerState)
    (req : Request) (dUrl dKey freshUuid : String) (freshTid : Nat)
    (sid : String) (r : SMap RedisEntry) (entry : RedisEntry)
    (hs : headerVal req.sessionIdHeader = some sid)
    (hl : getSession st sid = none)
    (hr : st.redis = some r)
    (he : mapLookup r (redisKey sid) = some entry) :
    handlePost st req dUrl dKey freshUuid freshTid =
      (.forwarded ⟨freshTid, sid, entry.value⟩,
       saveSession st sid entry.value.n8nUrl entry.value.n8nApiKey
         ⟨freshTid, sid, entry.value⟩) ∧
    (⟨freshTid, sid, entry.value⟩ : Transport).sessionId = sid ∧
    getSession (handlePost st req dUrl dKey freshUuid freshTid).2 sid =
      some ⟨⟨freshTid, sid, entry.value⟩, entry.value.n8nUrl, entry.value.n8nApiKey⟩ := by
  have h := handlePost_reconstruct st req dUrl dKey freshUuid freshTid sid r entry hs hl hr he
  refine ⟨h, rfl, ?_⟩
  rw [h]
  simp [reconstructSession, saveSession, getSession, mapLookup_mapSet_self]

/-- Redis record of the C3 witness state. -/
def c3Entry : RedisEntry := ⟨⟨"https://tenant-c", "key-c"⟩, 7200⟩

/-- Witness state for C3: empty local map, Redis holding one record —
the view of a replica that did not create the session. -/
def c3State : ServerState := ⟨[], some [(redisKey "s3", c3Entry)]⟩

/-- Witness request for C3: carries the remotely known session id and
tenant-credential headers that differ from the stored record. -/
def c3Req : Request := ⟨some "s3", some "https://other", some "other-key", false⟩

theorem reconstruction_binds_stored_credentials_witness :
    handlePost c3State c3Req "https://dflt" "dk" "uuid-7" 7 =
      (.forwarded ⟨7, "s3", c3Entry.value⟩,
       saveSession c3State "s3" c3Entry.value.n8nUrl c3Entry.value.n8nApiKey
         ⟨7, "s3", c3Entry.value⟩) ∧
    (⟨7, "s3", c3Entry.value⟩ : Transport).sessionId = "s3" ∧
    getSession (handlePost c3State c3Req "https://dflt" "dk" "uuid-7" 7).2 "s3" =
      some ⟨⟨7, "s3", c3Entry.value⟩, c3Entry.value.n8nUrl, c3Entry.value.n8nApiKey⟩ :=
  reconstruction_binds_stored_credentials c3State c3Req "https://dflt" "dk" "uuid-7" 7
    "s3" [(redisKey "s3", c3Entry)] c3Entry rfl rfl rfl rfl

/- ## Claim C6 -/

/-- C6: a POST whose session id is found neither locally nor in the
distributed store, and whose body is not an initialize request, is
rejected with a JSON-RPC error envelope of code -32000 telling the client
the session was not found and to send Initialize first (HTTP 400), and
the state is returned unchanged — no session or transport is created. -/
theorem unknown_session_rejected (st : ServerState) (req : Request)
    (dUrl dKey freshUuid : String) (freshTid : Nat) (sid : String)
    (hs : headerVal req.sessionIdHeader = some sid)
    (hl : getSession st sid = none)
    (hr : redisRecord st sid = none)
    (hi : req.isInit = false) :
    handlePost st req dUrl dKey freshUuid freshTid =
      (.rpcError 400 (-32000) "Sessão não encontrada. Envie Initialize primeiro.", st) := by
  rw [handlePost_miss st req dUrl dKey freshUuid freshTid sid hs hl hr]
  simp [newSessionPath, hi]

/-- Witness state for C6: empty local map, Redis configured but empty. -/
def c6State : ServerState := ⟨[], some []⟩

/-- Witness request for C6: an unregistered session id with a
non-initialize body (for example tools/list). -/
def c6Req : Request := ⟨some "ghost", none, none, false⟩

theorem unknown_session_rejected_witness :
    handlePost c6State c6Req "https://dflt" "dk" "uuid-1" 1 =
      (.rpcError 400 (-32000) "Sessão não encontrada. Envie Initialize primeiro.",
       c6State) :=
  unknown_session_rejected c6State c6Req "https://dflt" "dk" "uuid-1" 1 "ghost"
    rfl rfl rfl rfl

/- ## Claim C4 -/

/-- Redis record of the C4 scenario: created with TTL 7200, of which
3600 seconds remain. -/
def c4Entry : RedisEntry := ⟨⟨"https://tenant-d", "key-d"⟩, 3600⟩

/-- State of the C4 scenario: the view of a replica that does not hold
the transport locally (for example after a failover), 3600 seconds after
the session was created on another replica. -/
def c4State : ServerState := ⟨[], some [(redisKey "s4", c4Entry)]⟩

/-- Request of the C4 scenario: later activity on the session — a
non-initialize POST carrying its id. -/
def c4Req : Request := ⟨some "s4", none, none, false⟩

/-- C4 counterexample: the stored record has 3600 seconds of TTL left;
handling one later request on the session (the reconstruction branch)
rewrites the record with a fresh TTL of 7200 seconds — refuting the claim
that the TTL is set once at creation and never refreshed by later
activity on the session. -/
theorem ttl_refresh_counterexample :
    redisRecord c4State "s4" = some ⟨⟨"https://tenant-d", "key-d"⟩, 3600⟩ ∧
    redisRecord (handlePost c4State c4Req "https://dflt" "dk" "uuid-2" 2).2 "s4" =
      some ⟨⟨"https://tenant-d", "key-d"⟩, 7200⟩ := by
  exact ⟨rfl, rfl⟩

/-- C4 (amended): when the distributed store is configured, saveSession
writes the serializable credential record with a TTL of 7200 seconds;
a request served by a locally held transport leaves the whole state —
hence the record and its TTL — untouched; but a request that takes the
reconstruction branch rewrites the record with a fresh 7200-second TTL. -/
theorem ttl_fixed_at_create_except_reconstruction (st : ServerState)
    (req : Request) (dUrl dKey freshUuid : String) (freshTid : Nat)
    (sid n8nUrl n8nApiKey : String) (t : Transport) (r : SMap RedisEntry)
    (hr : st.redis = some r) :
    redisRecord (saveSession st sid n8nUrl n8nApiKey t) sid =
      some ⟨⟨n8nUrl, n8nApiKey⟩, 7200⟩ ∧
    (∀ session : LocalSession, headerVal req.sessionIdHeader = some sid →
        getSession st sid = some session →
        (handlePost st req dUrl dKey freshUuid freshTid).2 = st) ∧
    (∀ entry : RedisEntry, headerVal req.sessionIdHeader = some sid →
        getSession st sid = none →
        mapLookup r (redisKey sid) = some entry →
        redisRecord (handlePost st req dUrl dKey freshUuid freshTid).2 sid =
          some ⟨entry.value, 7200⟩) := by
  refine ⟨?_, ?_, ?_⟩
  · simp [redisRecord, saveSession, hr, mapLookup_mapSet_self]
  · intro session hs hl
    rw [handlePost_localHit st req dUrl dKey freshUuid freshTid sid session hs hl]
  · intro entry hs hl he
    rw [handlePost_reconstruct st req dUrl dKey freshUuid freshTid sid r entry hs hl hr he]
    simp [reconstructSession, redisRecord, saveSession, hr, mapLookup_mapSet_self]

theorem ttl_fixed_at_create_except_reconstruction_witness :
    redisRecord (handlePost c4State c4Req "https://dflt" "dk" "uuid-2" 2).2 "s4" =
      some ⟨c4Entry.value, 7200⟩ :=
  (ttl_fixed_at_create_except_reconstruction c4State c4Req "https://dflt" "dk"
      "uuid-2" 2 "s4" "u" "k" c1Transport [(redisKey "s4", c4Entry)] rfl).2.2
    c4Entry rfl rfl rfl

/- ## Claim C5 -/

/-- Execution of two interleaved reconstructions racing on the same id:
both decide on the same starting state, so each builds, connects,
registers and forwards into its own transport; the second saveSession
overwrites the first entry, and no caller ever reuses the transport of
the other. -/
theorem raceTwo_reconstruct (st : ServerState) (req : Request)
    (dUrl dKey u₁ u₂ : String) (tid₁ tid₂ : Nat) (sid : String)
    (r : SMap RedisEntry) (entry : RedisEntry)
    (hs : headerVal req.sessionIdHeader = some sid)
    (hl : getSession st sid = none)
    (hr : st.redis = some r)
    (he : mapLookup r (redisKey sid) = some entry) :
    raceTwo st req dUrl dKey u₁ u₂ tid₁ tid₂ =
      (.forwarded ⟨tid₁, sid, entry.value⟩,
       .forwarded ⟨tid₂, sid, entry.value⟩,
       saveSession
         (saveSession st sid entry.value.n8nUrl entry.value.n8nApiKey
           ⟨tid₁, sid, entry.value⟩)
         sid entry.value.n8nUrl entry.value.n8nApiKey
         ⟨tid₂, sid, entry.value⟩) := by
  have hd := postDecide_reconstruct st req sid r entry hs hl hr he
  simp [raceTwo, hd, postCommit, reconstructSession]

/-- Redis record of the C5 scenario. -/
def c5Entry : RedisEntry := ⟨⟨"https://tenant-e", "key-e"⟩, 7200⟩

/-- State of the C5 scenario: the session id is unregistered locally and
known to Redis, so each racing request takes the reconstruction branch. -/
def c5State : ServerState := ⟨[], some [(redisKey "s5", c5Entry)]⟩

/-- Request of the C5 scenario. -/
def c5Req : Request := ⟨some "s5", none, none, false⟩

/-- C5 counterexample: two concurrent creations racing on the same
unregistered id each forward their in-flight request into their own
freshly built transport — two distinct transports both serve the id, the
first caller does not reuse the transport retained in the registry (the
second one), refuting serialization of creation per id. -/
theorem create_race_counterexample :
    (raceTwo c5State c5Req "https://dflt" "dk" "u1" "u2" 1 2).1 =
      .forwarded ⟨1, "s5", ⟨"https://tenant-e", "key-e"⟩⟩ ∧
    (raceTwo c5State c5Req "https://dflt" "dk" "u1" "u2" 1 2).2.1 =
      .forwarded ⟨2, "s5", ⟨"https://tenant-e", "key-e"⟩⟩ ∧
    decide ((⟨1, "s5", ⟨"https://tenant-e", "key-e"⟩⟩ : Transport) =
      ⟨2, "s5", ⟨"https://tenant-e", "key-e"⟩⟩) = false ∧
    getSession (raceTwo c5State c5Req "https://dflt" "dk" "u1" "u2" 1 2).2.2 "s5" =
      some ⟨⟨2, "s5", ⟨"https://tenant-e", "key-e"⟩⟩,
            "https://tenant-e", "key-e"⟩ := by
  exact ⟨rfl, rfl, rfl, rfl⟩

/-- C5 (amended): creation races on the same unregistered id are not
serialized — each of the two racing callers forwards into its own
transport (so the losing caller does not reuse the winner transport and
its own transport is not discarded before serving the request); the local
map retains the last writer transport, and the local session count still
increases by exactly 1, not 2, because entries are keyed by the id. -/
theorem create_race_last_write_wins (st : ServerState) (req : Request)
    (dUrl dKey u₁ u₂ : String) (tid₁ tid₂ : Nat) (sid : String)
    (r : SMap RedisEntry) (entry : RedisEntry)
    (hs : headerVal req.sessionIdHeader = some sid)
    (hl : getSession st sid = none)
    (hr : st.redis = some r)
    (he : mapLookup r (redisKey sid) = some entry) :
    (raceTwo st req dUrl dKey u₁ u₂ tid₁ tid₂).1 =
      .forwarded ⟨tid₁, sid, entry.value⟩ ∧
    (raceTwo st req dUrl dKey u₁ u₂ tid₁ tid₂).2.1 =
      .forwarded ⟨tid₂, sid, entry.value⟩ ∧
    getSession (raceTwo st req dUrl dKey u₁ u₂ tid₁ tid₂).2.2 sid =
      some ⟨⟨tid₂, sid, entry.value⟩, entry.value.n8nUrl, entry.value.n8nApiKey⟩ ∧
    activeSessionCount (raceTwo st req dUrl dKey u₁ u₂ tid₁ tid₂).2.2 =
      activeSessionCount st + 1 := by
  rw [raceTwo_reconstruct st req dUrl dKey u₁ u₂ tid₁ tid₂ sid r entry hs hl hr he]
  refine ⟨rfl, rfl, ?_, ?_⟩
  · simp [getSession, saveSession, mapLookup_mapSet_self]
  · have hln : mapLookup st.localTransports sid = none := hl
    simp only [activeSessionCount, saveSession]
    exact length_mapSet_mapSet_self st.localTransports sid _ _ hln

theorem create_race_last_write_wins_witness :
    (raceTwo c5State c5Req "https://dflt" "dk" "u1" "u2" 6 8).1 =
      .forwarded ⟨6, "s5", c5Entry.value⟩ ∧
    (raceTwo c5State c5Req "https://dflt" "dk" "u1" "u2" 6 8).2.1 =
      .forwarded ⟨8, "s5", c5Entry.value⟩ ∧
    getSession (raceTwo c5State c5Req "https://dflt" "dk" "u1" "u2" 6 8).2.2 "s5" =
      some ⟨⟨8, "s5", c5Entry.value⟩, c5Entry.value.n8nUrl, c5Entry.value.n8nApiKey⟩ ∧
    activeSessionCount (raceTwo c5State c5Req "https://dflt" "dk" "u1" "u2" 6 8).2.2 =
      activeSessionCount c5State + 1 :=
  create_race_last_write_wins c5State c5Req "https://dflt" "dk" "u1" "u2" 6 8
    "s5" [(redisKey "s5", c5Entry)] c5Entry rfl rfl rfl rfl

/- ## Claim C7 -/

/-- C7: the cited tool handlers are total on every upstream behaviour —
for every outcome of the wrapped n8n API call (2xx body of any shape,
non-2xx response, timeout abort, network fault) list_workflows returns a
result with a non-empty content list whose isError flag is set exactly on
failure, and likewise execute_workflow_via_webhook for every webhook
fetch outcome and every JSON.parse outcome on its body text; no input
makes either handler propagate an exception. -/
theorem tool_handlers_never_raise :
    (∀ o : UpstreamOutcome,
        (listWorkflowsHandler (n8nRequestResult o)).content.isEmpty = false ∧
        (listWorkflowsHandler (n8nRequestResult o)).isError = upstreamFails o) ∧
    (∀ (f : FetchOutcome) (parsed : Option Json),
        (executeWorkflowViaWebhookHandler f parsed).content.isEmpty = false ∧
        (executeWorkflowViaWebhookHandler f parsed).isError = fetchFails f) := by
  constructor
  · intro o
    cases o <;> simp [listWorkflowsHandler, n8nRequestResult, upstreamFails]
  · intro f parsed
    cases f with
    | resp ok status text =>
        cases ok <;> simp [executeWorkflowViaWebhookHandler, fetchFails]
    | timeout => simp [executeWorkflowViaWebhookHandler, fetchFails]
    | networkError msg => simp [executeWorkflowViaWebhookHandler, fetchFails]

/- ## Claim C8 -/

/-- C8: deleteSession removes the id from both the local map and the
distributed store, returning the removed local session or none when the
id held no local session; after one deletion the id resolves nowhere and
deleting again changes nothing; at the route level, a DELETE carrying an
id unknown everywhere answers not-found with the state unchanged, and the
same call repeated is still not-found. -/
theorem delete_idempotent_not_found (st : ServerState) (sid : String)
    (hne : (sid == "") = false)
    (hl : getSession st sid = none)
    (hr : redisRecord st sid = none) :
    handleDelete st (some sid) = (.notFound "Sessão não encontrada.", st) ∧
    handleDelete (handleDelete st (some sid)).2 (some sid) =
      (.notFound "Sessão não encontrada.", st) ∧
    (∀ st' : ServerState,
        (deleteSession st' sid).1 = mapLookup st'.localTransports sid ∧
        mapLookup (deleteSession st' sid).2.localTransports sid = none ∧
        redisRecord (deleteSession st' sid).2 sid = none ∧
        (deleteSession (deleteSession st' sid).2 sid).2 = (deleteSession st' sid).2) := by
  obtain ⟨l, rd⟩ := st
  have hstate : deleteSession ⟨l, rd⟩ sid = (none, ⟨l, rd⟩) := by
    have hlx : mapLookup l sid = none := hl
    have hlerase : mapErase l sid = l :=
      mapErase_of_lookup_none l sid hlx
    cases rd with
    | none => simp [deleteSession, hlx, hlerase]
    | some r =>
        have hrerase : mapErase r (redisKey sid) = r :=
          mapErase_of_lookup_none r (redisKey sid) (by simpa [redisRecord] using hr)
        simp [deleteSession, hlx, hlerase, hrerase]
  have hd : handleDelete ⟨l, rd⟩ (some sid) =
      (.notFound "Sessão não encontrada.", ⟨l, rd⟩) := by
    simp [handleDelete, headerVal, hne, hstate]
  refine ⟨hd, by rw [hd]; exact hd, ?_⟩
  intro st'
  refine ⟨rfl, mapLookup_mapErase_self _ _, ?_, ?_⟩
  · cases hred : st'.redis with
    | none => simp [deleteSession, redisRecord, hred]
    | some r => simp [deleteSession, redisRecord, hred, mapLookup_mapErase_self]
  · cases hred : st'.redis with
    | none => simp [deleteSession, hred, mapErase_mapErase]
    | some r => simp [deleteSession, hred, mapErase_mapErase]

/-- Session stored in the C8 witness state, under an id unrelated to the
one being deleted. -/
def c8Session : LocalSession :=
  ⟨⟨3, "other", ⟨"https://tenant-f", "key-f"⟩⟩, "https://tenant-f", "key-f"⟩

/-- Witness state for C8: one unrelated local session and an empty Redis
keyspace; the deleted id is unknown everywhere. -/
def c8State : ServerState := ⟨[("other", c8Session)], some []⟩

theorem delete_idempotent_not_found_witness :
    handleDelete c8State (some "ghost8") = (.notFound "Sessão não encontrada.", c8State) ∧
    handleDelete (handleDelete c8State (some "ghost8")).2 (some "ghost8") =
      (.notFound "Sessão não encontrada.", c8State) :=
  ⟨(delete_idempotent_not_found c8State "ghost8" rfl rfl rfl).1,
   (delete_idempotent_not_found c8State "ghost8" rfl rfl rfl).2.1⟩

/- ## Claim C9 -/

/-- Success test on the resolver result, modelling that getCredentials
returned instead of throwing. -/
def credsResolved : Except String Creds → Bool
  | .ok _ => true
  | .error _ => false

/-- C9: getCredentials treats an empty-string header exactly like an
absent one (each of the two headers independently), resolves each value
as header-or-default, throws exactly when a resolved value is still
empty, and otherwise returns the resolved pair. -/
theorem getCredentials_empty_header_as_absent (hUrl hKey : Option String)
    (dUrl dKey : String) :
    getCredentials (some "") hKey dUrl dKey = getCredentials none hKey dUrl dKey ∧
    getCredentials hUrl (some "") dUrl dKey = getCredentials hUrl none dUrl dKey ∧
    credsResolved (getCredentials hUrl hKey dUrl dKey) =
      (!(jsOr hUrl dUrl == "") && !(jsOr hKey dKey == "")) ∧
    ((jsOr hUrl dUrl == "") = false → (jsOr hKey dKey == "") = false →
        getCredentials hUrl hKey dUrl dKey = .ok ⟨jsOr hUrl dUrl, jsOr hKey dKey⟩) := by
  refine ⟨rfl, ?_, ?_, ?_⟩
  · cases hUrl with
    | none => rfl
    | some s => simp [getCredentials, jsOr]
  · by_cases h₁ : (jsOr hUrl dUrl == "") = true <;>
      by_cases h₂ : (jsOr hKey dKey == "") = true <;>
        simp_all [getCredentials, credsResolved]
  · intro h₁ h₂
    simp [getCredentials, h₁, h₂]

theorem getCredentials_empty_header_as_absent_witness :
    getCredentials (some "") (some "key-w") "https://dflt" "dk" =
      .ok ⟨jsOr (some "") "https://dflt", jsOr (some "key-w") "dk"⟩ :=
  (getCredentials_empty_header_as_absent (some "") (some "key-w")
      "https://dflt" "dk").2.2.2 rfl rfl

/- ## Claim C10 -/

theorem revSlashNorm (rl : List Char) (h : headIsDoubleSlash rl = false) :
    (if headIsSlash rl then rl.reverse else rl.reverse ++ ['/']) =
      (rl.dropWhile (fun c => c == '/')).reverse ++ ['/'] := by
  cases rl with
  | nil => simp [headIsSlash]
  | cons c t =>
      by_cases hc : c = '/'
      · subst hc
        cases t with
        | nil => simp [headIsSlash, List.dropWhile]
        | cons c₂ t₂ =>
            have hc₂ : (c₂ == '/') = false := by
              by_contra hx
              have hx' : (c₂ == '/') = true := by simpa using hx
              simp [headIsDoubleSlash, hx'] at h
            simp [headIsSlash, List.dropWhile, hc₂]
      · have hcb : (c == '/') = false := by simpa using hc
        simp [headIsSlash, List.dropWhile, hcb]

theorem baseUrl_norm (base : String) (h : endsInDoubleSlash base = false) :
    (if endsWithSlash base then base else base ++ "/") =
      baseWithOneTrailingSlash base := by
  have key := revSlashNorm base.data.reverse (by simpa [endsInDoubleSlash] using h)
  rw [List.reverse_reverse] at key
  apply String.ext
  rw [apply_ite String.data]
  simpa [endsWithSlash, baseWithOneTrailingSlash] using key

/-- C10 counterexample: for a base URL ending in two slashes the code
keeps both, producing a doubled separator before "api/v1", while the
claimed shape (base normalized to exactly one trailing slash) does not —
the two disagree at this input. -/
theorem requestUrl_double_slash_counterexample :
    n8nRequestUrl "http://h//" "/p" = "http://h//api/v1/p" ∧
    claimedRequestUrl "http://h//" "/p" = "http://h/api/v1/p" ∧
    decide (n8nRequestUrl "http://h//" "/p" = claimedRequestUrl "http://h//" "/p") =
      false := by
  exact ⟨rfl, rfl, rfl⟩

/-- C10 (amended): for every base URL that does not already end in two or
more slashes, and every path, the URL built by makeN8nRequest equals the
base with exactly one trailing slash, followed by "api/v1/", followed by
the path with any single leading slash removed; on a base already ending
in several slashes the code keeps the extra slashes instead of collapsing
them. -/
theorem requestUrl_normalization (base path : String)
    (h : endsInDoubleSlash base = false) :
    n8nRequestUrl base path = claimedRequestUrl base path := by
  simp only [n8nRequestUrl, claimedRequestUrl]
  rw [baseUrl_norm base h]

theorem requestUrl_normalization_witness :
    n8nRequestUrl "https://host" "/workflows" =
      claimedRequestUrl "https://host" "/workflows" :=
  requestUrl_normalization "https://host" "/workflows" rfl
